import Mathlib

/-!
# Verification of the reservation availability monitor

A shallow embedding of the decision logic of `reservation_checker.py` and
`monitor.py` (the Les Grands Buffets availability monitor), together with
theorems settling the specification claims about it.

Texts coming from the page are modelled as `List Char`; Python's
case-insensitive substring tests become `containsSub` over lower-cased
character lists (`Char.toLower` is the ASCII lowering, which agrees with
Python `str.lower()` on all the ASCII texts the heuristics target).
Calendar dates are modelled by their proleptic-Gregorian day ordinal
(`dateOrd`, the same rata-die count `datetime.date.toordinal` uses), so the
Python comparisons `today <= d <= today + timedelta(days=n)` become ordinal
inequalities.
-/

namespace ResMonitor

/-- Python `needle in haystack`: `needle` occurs as a contiguous substring. -/
def containsSub (needle : List Char) : List Char → Bool
  | [] => needle.isEmpty
  | c :: cs => needle.isPrefixOf (c :: cs) || containsSub needle cs

/-- Python `str.lower()` (ASCII lowering at the character level). -/
def lowerStr (s : List Char) : List Char := s.map Char.toLower

/-- Python `str.strip()`: remove leading and trailing whitespace. -/
def stripB (s : List Char) : List Char :=
  ((s.dropWhile Char.isWhitespace).reverse.dropWhile Char.isWhitespace).reverse

/-- A regex word character (`\w`), deciding the `\b` boundaries used by
`re.search` in `is_within_date_range`. -/
def isWordChar (c : Char) : Bool := c.isAlphanum || c = '_'

/-- A `\b` boundary holds before the current position: either start of text
(`prev = none`) or the previous character is not a word character. -/
def atBoundary (prev : Option Char) : Bool :=
  match prev with
  | none => true
  | some p => !isWordChar p

/-- Digit value of a character. -/
def digitVal (c : Char) : Nat := c.toNat - '0'.toNat

/-- An attempted match of `\b(\d{1,2})\b` anchored at the current position
(the remaining text), given the character just before it.  The quantifier is
greedy: two digits are preferred, and backtracking to one digit can only
succeed when the second character is not a digit (a digit is a word
character, so a digit run of length `≥ 3` never matches). -/
def dayHere (prev : Option Char) : List Char → Option Nat
  | [] => none
  | [c1] => if atBoundary prev && c1.isDigit then some (digitVal c1) else none
  | c1 :: c2 :: rest =>
    if atBoundary prev && c1.isDigit then
      if c2.isDigit then
        match rest with
        | [] => some (10 * digitVal c1 + digitVal c2)
        | c3 :: _ =>
          if !isWordChar c3 then some (10 * digitVal c1 + digitVal c2) else none
      else if !isWordChar c2 then some (digitVal c1) else none
    else none

/-- `re.search(r'\b(\d{1,2})\b', text)`: the leftmost boundary-delimited run
of one or two digits, as a number. -/
def findDay (prev : Option Char) : List Char → Option Nat
  | [] => none
  | c :: cs =>
    match dayHere prev (c :: cs) with
    | some v => some v
    | none => findDay (some c) cs

/-- An attempted match of `\b(20\d{2})\b` anchored at the current position. -/
def yearHere (prev : Option Char) : List Char → Option Nat
  | c1 :: c2 :: c3 :: c4 :: rest =>
    if atBoundary prev && c1 = '2' && c2 = '0' && c3.isDigit && c4.isDigit &&
        (match rest with | [] => true | c5 :: _ => !isWordChar c5) then
      some (2000 + 10 * digitVal c3 + digitVal c4)
    else none
  | _ => none

/-- `re.search(r'\b(20\d{2})\b', text)`: the leftmost boundary-delimited
four-digit token beginning `20`. -/
def findYear (prev : Option Char) : List Char → Option Nat
  | [] => none
  | c :: cs =>
    match yearHere prev (c :: cs) with
    | some v => some v
    | none => findYear (some c) cs

/-- A calendar date, as carried by Python `datetime.date`. -/
structure Date where
  year : Nat
  month : Nat
  day : Nat
  deriving Repr, DecidableEq

/-- Gregorian leap year (`calendar.isleap`). -/
def isLeap (y : Nat) : Bool := y % 4 = 0 && (y % 100 ≠ 0 || y % 400 = 0)

/-- Number of days in month `m` of year `y`. -/
def daysInMonth (y m : Nat) : Nat :=
  if m = 2 then (if isLeap y then 29 else 28)
  else if m = 4 || m = 6 || m = 9 || m = 11 then 30
  else 31

/-- The `(year, month, day)` triples `datetime(...)` accepts; anything else
raises and is treated as an unparseable date by `is_within_date_range`. -/
def validDate (d : Date) : Bool :=
  1 ≤ d.year && d.year ≤ 9999 && 1 ≤ d.month && d.month ≤ 12 &&
    1 ≤ d.day && d.day ≤ daysInMonth d.year d.month

/-- Days in complete years before year `y` (rata die). -/
def daysBeforeYear (y : Nat) : Nat :=
  365 * (y - 1) + (y - 1) / 4 + (y - 1) / 400 - (y - 1) / 100

/-- Days in complete months of year `y` before month `m`. -/
def daysBeforeMonth (y m : Nat) : Nat :=
  (List.range (m - 1)).foldl (fun acc k => acc + daysInMonth y (k + 1)) 0

/-- The proleptic-Gregorian day ordinal (`datetime.date.toordinal`); on valid
dates its order is exactly `datetime.date` order, and adding `n` days adds
`n` to the ordinal. -/
def dateOrd (d : Date) : Nat := daysBeforeYear d.year + daysBeforeMonth d.year d.month + d.day

/-- The `months_lookup` dictionary of `is_within_date_range`, in its Python
insertion order (iteration order of a Python `dict`). -/
def months_lookup : List (List Char × Nat) :=
  [("january".data, 1), ("janvier".data, 1), ("jan".data, 1),
   ("february".data, 2), ("février".data, 2), ("fevrier".data, 2), ("feb".data, 2),
   ("march".data, 3), ("mars".data, 3),
   ("april".data, 4), ("avril".data, 4), ("apr".data, 4),
   ("may".data, 5), ("mai".data, 5),
   ("june".data, 6), ("juin".data, 6),
   ("july".data, 7), ("juillet".data, 7), ("jul".data, 7),
   ("august".data, 8), ("août".data, 8), ("aout".data, 8), ("aug".data, 8),
   ("september".data, 9), ("septembre".data, 9), ("sep".data, 9), ("sept".data, 9),
   ("october".data, 10), ("octobre".data, 10), ("oct".data, 10),
   ("november".data, 11), ("novembre".data, 11), ("nov".data, 11),
   ("december".data, 12), ("décembre".data, 12), ("decembre".data, 12), ("dec".data, 12)]

/-- The month-scan loop of `is_within_date_range`: the first dictionary entry
whose name occurs in the lowered text wins. -/
def monthLookup (textLower : List Char) : Option Nat :=
  (months_lookup.find? (fun p => containsSub p.1 textLower)).map (·.2)

/-- `MONTHS_AHEAD` from the configuration block. -/
def MONTHS_AHEAD : Nat := 4

/-- The date-extraction part of `is_within_date_range` (lines 201–226): the
month keyword scan, the first 1–2-digit day token, the optional `20\d{2}`
year token, and the current-year inference with roll-over when the parsed
month is strictly before the current month.  `none` is the spec's `Unknown`. -/
def parsedTriple (text : List Char) (today : Date) : Option Date :=
  match monthLookup (lowerStr text) with
  | none => none
  | some m =>
    match findDay none text with
    | none => none
    | some d =>
      let y :=
        match findYear none text with
        | some yr => yr
        | none => if m < today.month then today.year + 1 else today.year
      some ⟨y, m, d⟩

/-- `is_within_date_range(text)` of `reservation_checker.py`, with the
ambient `datetime.now().date()` passed explicitly as `today`.  Parse failure
(no month, no day, or a triple `datetime` rejects) yields `true`; otherwise
the parsed date must lie between `today` and `today + MONTHS_AHEAD*30` days. -/
def is_within_date_range (text : List Char) (today : Date) : Bool :=
  match parsedTriple text today with
  | none => true
  | some d =>
    if validDate d then
      decide (dateOrd today ≤ dateOrd d) && decide (dateOrd d ≤ dateOrd today + MONTHS_AHEAD * 30)
    else true

/-- `FRIDAY_SATURDAY_KEYWORDS` (reservation_checker.py line 33). -/
def FRIDAY_SATURDAY_KEYWORDS : List (List Char) :=
  ["fri".data, "friday".data, "vendredi".data, "ven".data,
   "sat".data, "saturday".data, "samedi".data, "sam".data]

/-- `is_friday_or_saturday(text)` of `reservation_checker.py`: raw
case-insensitive substring containment of any keyword. -/
def is_friday_or_saturday (text : List Char) : Bool :=
  let t := lowerStr text
  FRIDAY_SATURDAY_KEYWORDS.any (fun day => containsSub day t)

/-- `is_friday_or_saturday(text)` of `monitor.py` (its inlined, smaller
keyword list). -/
def is_friday_or_saturday_mon (text : List Char) : Bool :=
  let t := lowerStr text
  ["fri".data, "vendredi".data, "sat".data, "samedi".data].any
    (fun day => containsSub day t)

/-- One page `<button>` as read by `gather_candidate_buttons`: the raw
attribute values (`none` when the attribute is absent) and the inner text. -/
structure Button where
  disabledAttr : Option (List Char)
  ariaDisabled : Option (List Char)
  classAttr : Option (List Char)
  innerText : List Char
  ariaLabel : Option (List Char)
  deriving Repr, DecidableEq

/-- Python `attr or ""`. -/
def optText (o : Option (List Char)) : List Char := o.getD []

/-- `text = (await btn.inner_text()).strip()`. -/
def btnText (b : Button) : List Char := stripB b.innerText

/-- `aria = (await btn.get_attribute("aria-label") or "").strip()`. -/
def btnAria (b : Button) : List Char := stripB (optText b.ariaLabel)

/-- `combined = f"{text} {aria}"`. -/
def btnCombined (b : Button) : List Char := btnText b ++ ' ' :: btnAria b

/-- `aria or text`: the candidate label stored with the button. -/
def btnLabel (b : Button) : List Char :=
  if (btnAria b).isEmpty then btnText b else btnAria b

/-- The `combined.strip()` truthiness guard. -/
def btnNonempty (b : Button) : Bool := !(stripB (btnCombined b)).isEmpty

/-- `is_enabled`: `disabled` attribute absent, `aria-disabled != "true"`
(lower-cased), and `"disabled"` not a substring of the lower-cased class
attribute. -/
def btnEnabled (b : Button) : Bool :=
  b.disabledAttr.isNone &&
    !(lowerStr (optText b.ariaDisabled) = "true".data : Bool) &&
    !containsSub "disabled".data (lowerStr (optText b.classAttr))

/-- The per-button inclusion test of `gather_candidate_buttons`
(reservation_checker.py lines 260–278): non-empty combined text,
Friday/Saturday keyword, enabled, and within the date horizon. -/
def btnIsCandidate (b : Button) (today : Date) : Bool :=
  btnNonempty b && is_friday_or_saturday (btnCombined b) &&
    btnEnabled b && is_within_date_range (btnCombined b) today

/-- `gather_candidate_buttons(page)` of `reservation_checker.py`, as the
list of candidate labels in DOM encounter order (the element handles carried
alongside each label in the source are identified by the label here). -/
def gather_candidate_buttons (btns : List Button) (today : Date) : List (List Char) :=
  match btns with
  | [] => []
  | b :: rest =>
    if btnIsCandidate b today then btnLabel b :: gather_candidate_buttons rest today
    else gather_candidate_buttons rest today

/-- `FULLY_BOOKED_PHRASES` (reservation_checker.py lines 22–29). -/
def FULLY_BOOKED_PHRASES : List (List Char) :=
  ["we regret to inform you".data,
   "restaurant is fully booked".data,
   "complet pour ce service".data,
   "restaurant est complet".data,
   "aucune disponibilité".data,
   "no availability".data]

/-- The page state `check_single_date` classifies after the final advance:
the visible body text (`none` when `page.inner_text("body")` raises) and the
match counts of the six booking-form indicator selectors
(`bookingProbeRaises` records a `locator(...).count()` call raising before
any indicator matched, which `reached_booking_step` swallows). -/
structure ClassifyPage where
  emailNameCount : Nat
  emailTypeCount : Nat
  phoneCount : Nat
  nomCount : Nat
  nameCount : Nat
  textareaCount : Nat
  bookingProbeRaises : Bool
  bodyText : Option (List Char)
  deriving Repr, DecidableEq

/-- Some booking indicator selector has a positive match count (the loop of
`reached_booking_step` returning on the first hit). -/
def anyBookingIndicator (p : ClassifyPage) : Bool :=
  0 < p.emailNameCount || 0 < p.emailTypeCount || 0 < p.phoneCount ||
    0 < p.nomCount || 0 < p.nameCount || 0 < p.textareaCount

/-- `reached_booking_step(page)` (lines 315–333): `true` when a recognizable
contact/booking-form field is found; any exception is caught and yields
`false`. -/
def reached_booking_step (p : ClassifyPage) : Bool :=
  if p.bookingProbeRaises then false else anyBookingIndicator p

/-- `is_fully_booked(page)` (lines 306–312): a configured phrase occurs in
the lower-cased body text; an exception while reading the text yields
`false`. -/
def is_fully_booked (p : ClassifyPage) : Bool :=
  match p.bodyText with
  | none => false
  | some t =>
    let tl := lowerStr t
    FULLY_BOOKED_PHRASES.any (fun phrase => containsSub phrase tl)

/-- The classification tail of `check_single_date` (lines 422–436): the
booking-form probe is consulted first; only a page without a booking form is
tested for a fully-booked phrase, and the fall-through (neither) counts as
available. -/
def classifyAfterAdvance (p : ClassifyPage) : Bool :=
  if reached_booking_step p then true
  else if is_fully_booked p then false
  else true

/-- The bidirectional substring relocation of `check_single_date` (lines
345–348): the first re-gathered candidate whose label contains the target
label or is contained in it. -/
def relocate (cands : List (List Char)) (label : List Char) : Option (List Char) :=
  cands.find? (fun bl => containsSub label bl || containsSub bl label)

/-- The external interactions one probe of `check_single_date` performs,
fixed up front (the shallow embedding of the driver):
`relocButtons` is the button list of the re-fetched page that
`gather_candidate_buttons` filters for relocation; `clickOk` is the
scroll/click/settle of the matched date control not raising (an exception
there escapes to the outer handler, which returns `False`); `nextClickOk` is
some localized Next/Continue label responding; `finalWaitOk` is the settle
wait after the advance not raising; `page` is the page state then
classified.  The time-slot scan (lines 365–401) only mutates the page —
every failure inside it is swallowed per slot — so it is represented by its
effect on `page`. -/
structure ProbeEnv where
  today : Date
  relocButtons : List Button
  clickOk : Bool
  nextClickOk : Bool
  finalWaitOk : Bool
  page : ClassifyPage
  deriving Repr, DecidableEq

/-- `check_single_date(page, label)` of `reservation_checker.py`: `true`
exactly when the probe reaches classification and the classification tail
reports availability; relocation failure, a missing Next/Continue button,
and any escaped exception all land in a `return False`. -/
def check_single_date (env : ProbeEnv) (label : List Char) : Bool :=
  match relocate (gather_candidate_buttons env.relocButtons env.today) label with
  | none => false
  | some _ =>
    if !env.clickOk then false
    else if !env.nextClickOk then false
    else if !env.finalWaitOk then false
    else classifyAfterAdvance env.page

/-- The probe loop of `check_dates` (reservation_checker.py lines 458–484)
restricted to iterations whose calendar reset succeeded: each gathered
candidate label, paired with the probe environment its iteration
encounters, is probed in order, and the labels whose probe reports
availability are collected.  This is only the successful-reset slice of the
loop: the reset navigation itself can raise, which `check_dates_resets`
models. -/
def check_dates : List (List Char × ProbeEnv) → List (List Char)
  | [] => []
  | (label, env) :: rest =>
    if check_single_date env label then label :: check_dates rest
    else check_dates rest

/-- The full probe loop of `check_dates`, including the per-iteration
calendar reset `await page.goto(RESERVATION_URL, ...)` (line 462), which —
unlike the guest re-selection and Next clicks around it — is not wrapped in
any `try`.  Each triple carries whether that iteration's reset navigation
succeeded; a failing reset raises out of `check_dates` into `run_check`'s
top-level handler, so the function never returns and the availabilities
accumulated so far are lost (`none`), and no later candidate is probed. -/
def check_dates_resets : List (Bool × List Char × ProbeEnv) → Option (List (List Char))
  | [] => some []
  | (resetOk, label, env) :: rest =>
    if !resetOk then none
    else
      match check_dates_resets rest with
      | none => none
      | some tail =>
        some (if check_single_date env label then label :: tail else tail)

/-- The persisted run state (`run_state.json`): keys exactly `total_runs`,
`successful_finds`, `last_report_time`, `reservation_found`,
`last_run_time`.  Timestamps are modelled as seconds (`Option Nat`). -/
structure RunState where
  total_runs : Nat
  successful_finds : Nat
  last_report_time : Option Nat
  reservation_found : Bool
  last_run_time : Option Nat
  deriving Repr, DecidableEq

/-- `should_send_report(state)` (identical in both files): a report is due
when no report was ever sent or at least 6 hours (21600 s) have elapsed
since the last one.  (Python compares `datetime` differences, so a
last-report time in the future is not due; `Nat` truncation gives the
same answer.) -/
def should_send_report (st : RunState) (now : Nat) : Bool :=
  match st.last_report_time with
  | none => true
  | some last => 21600 ≤ now - last

/-- The report tail of `run_check` in `reservation_checker.py` (lines
580–584): when a report is due, `last_report_time` is set (and the state
re-saved) only if `send_status_report` returned `True`. -/
def reportTail_rc (st : RunState) (reportOk : Bool) (now : Nat) : RunState :=
  if should_send_report st now then
    if reportOk then { st with last_report_time := some now } else st
  else st

/-- The report tail of `run_check` in `monitor.py` (lines 334–337): its
`send_status_report` returns nothing, and after calling it the code sets
`last_report_time` unconditionally — `reportOk`, the underlying
`send_email` result, is ignored. -/
def reportTail_mon (st : RunState) (reportOk : Bool) (now : Nat) : RunState :=
  if should_send_report st now then { st with last_report_time := some now } else st

/-- The environment one invocation of `run_check` (reservation_checker.py)
interacts with: the wall clock, whether a critical error escapes the main
`try` (in which case `check_dates` produces nothing), the per-candidate
probe environments the loop of `check_dates` encounters, and the dispatch
results of the alert and the status report. -/
structure RunEnv where
  now : Nat
  crashed : Bool
  candEnvs : List (List Char × ProbeEnv)
  alertOk : Bool
  reportOk : Bool

/-- What one invocation did: the state left on disk, how many candidates
were probed, whether a DOM snapshot was ever taken, whether the invocation
exited at the reservation-found short-circuit, and whether an availability
alert was dispatched. -/
structure RunOutcome where
  finalState : RunState
  probed : Nat
  tookSnapshot : Bool
  earlyExit : Bool
  alerted : Bool
  deriving Repr, DecidableEq

/-- `run_check()` of `reservation_checker.py` (lines 489–586).  A state with
`reservation_found` set exits via `sys.exit(0)` before the browser is even
launched — no snapshot, no filtering, no probing, no state write.
Otherwise the run counter and timestamp update, the candidates are probed,
and: a non-empty result increments `successful_finds`, sets the terminal
flag, saves, alerts, and exits before the report tail; an empty result (or
a critical error) saves and runs the report tail. -/
def run_check_rc (st : RunState) (env : RunEnv) : RunOutcome :=
  if st.reservation_found then
    { finalState := st, probed := 0, tookSnapshot := false, earlyExit := true, alerted := false }
  else
    let st1 := { st with total_runs := st.total_runs + 1, last_run_time := some env.now }
    if env.crashed then
      { finalState := reportTail_rc st1 env.reportOk env.now, probed := 0,
        tookSnapshot := true, earlyExit := false, alerted := false }
    else
      let results := check_dates env.candEnvs
      if results.isEmpty then
        { finalState := reportTail_rc st1 env.reportOk env.now, probed := env.candEnvs.length,
          tookSnapshot := true, earlyExit := false, alerted := false }
      else
        let st2 := { st1 with
                     successful_finds := st1.successful_finds + 1
                     reservation_found := true }
        { finalState := st2, probed := env.candEnvs.length, tookSnapshot := true,
          earlyExit := false, alerted := true }

/-- The environment of one `monitor.py` invocation; its probe loop differs
in detail from `reservation_checker.py`, so its available-dates result is
carried directly. -/
structure RunEnvM where
  now : Nat
  crashed : Bool
  candCount : Nat
  results : List (List Char)
  reportOk : Bool

/-- `run_check()` of `monitor.py` (lines 260–339): the same short-circuit,
counter update, found-branch and exit; but its report tail sets
`last_report_time` whenever a report was due, regardless of the send
result. -/
def run_check_mon (st : RunState) (env : RunEnvM) : RunOutcome :=
  if st.reservation_found then
    { finalState := st, probed := 0, tookSnapshot := false, earlyExit := true, alerted := false }
  else
    let st1 := { st with total_runs := st.total_runs + 1, last_run_time := some env.now }
    if env.crashed then
      { finalState := reportTail_mon st1 env.reportOk env.now, probed := 0,
        tookSnapshot := true, earlyExit := false, alerted := false }
    else if env.results.isEmpty then
      { finalState := reportTail_mon st1 env.reportOk env.now, probed := env.candCount,
        tookSnapshot := true, earlyExit := false, alerted := false }
    else
      let st2 := { st1 with
                   successful_finds := st1.successful_finds + 1
                   reservation_found := true }
      { finalState := st2, probed := env.candCount, tookSnapshot := true,
        earlyExit := false, alerted := true }

/-- A sequence of invocations of `reservation_checker.py`'s `run_check`,
each starting from the state the previous one persisted. -/
def iterate_rc (st : RunState) : List RunEnv → List RunOutcome
  | [] => []
  | e :: es =>
    let o := run_check_rc st e
    o :: iterate_rc o.finalState es

/-! ### Concrete fixtures used by the scenario conjuncts and witnesses -/

/-- A sample "today": 15 March 2025. -/
def exToday : Date := ⟨2025, 3, 15⟩

/-- An enabled `Friday 10 May` button. -/
def exBtnFri : Button := ⟨none, none, none, "Friday 10 May".data, none⟩

/-- A `Saturday 11 May` button carrying the `disabled` attribute. -/
def exBtnSatDisabled : Button := ⟨some [], none, none, "Saturday 11 May".data, none⟩

/-- An enabled `Monday 13 May` button. -/
def exBtnMon : Button := ⟨none, none, none, "Monday 13 May".data, none⟩

/-- An enabled button whose text names no weekday but contains `ven`. -/
def exBtnEvent : Button := ⟨none, none, none, "Event 14 June".data, none⟩

/-- A page carrying both a fully-booked phrase in its body text and an
`input[type='email']` match. -/
def exPageBoth : ClassifyPage := ⟨0, 1, 0, 0, 0, 0, false, some "Sorry, restaurant est complet".data⟩

/-- A page with a fully-booked phrase and no booking-form field. -/
def exPageComplet : ClassifyPage := ⟨0, 0, 0, 0, 0, 0, false, some "Le restaurant est complet".data⟩

/-- A page exposing an email input and no fully-booked phrase. -/
def exPageForm : ClassifyPage := ⟨0, 1, 0, 0, 0, 0, false, some "Vos informations".data⟩

/-- A page on which both reads fail: the booking-form probe raises and
`inner_text("body")` raises. -/
def exPageFail : ClassifyPage := ⟨0, 0, 0, 0, 0, 0, true, none⟩

/-- A probe whose steps all succeed and whose final page shows a form. -/
def exEnvGood : ProbeEnv := ⟨exToday, [exBtnFri], true, true, true, exPageForm⟩

/-- A probe whose final page carries both signals (`exPageBoth`). -/
def exEnvBoth : ProbeEnv := ⟨exToday, [exBtnFri], true, true, true, exPageBoth⟩

/-- A probe that re-gathers an empty candidate list: relocation must fail. -/
def exEnvEmpty : ProbeEnv := ⟨exToday, [], true, true, true, exPageForm⟩

/-- A probe whose steps succeed but whose final page is unreadable. -/
def exEnvFail : ProbeEnv := ⟨exToday, [exBtnFri], true, true, true, exPageFail⟩

/-- An enabled `Saturday 17 May` button. -/
def exBtnSat17 : Button := ⟨none, none, none, "Saturday 17 May".data, none⟩

/-- A second fully-successful probe, relocating `Saturday 17 May`. -/
def exEnvGood2 : ProbeEnv := ⟨exToday, [exBtnSat17], true, true, true, exPageForm⟩

/-- A freshly initialised run state (the zeroed defaults of `load_state`). -/
def exStZero : RunState := ⟨0, 0, none, false, none⟩

/-- A run state whose terminal `reservation_found` flag is set. -/
def exStFound : RunState := ⟨5, 1, none, true, some 42⟩

/-- A sample invocation environment for `reservation_checker.py`. -/
def exRunEnv : RunEnv := ⟨1000, false, [("Friday 10 May".data, exEnvGood)], true, true⟩

/-- An invocation environment whose status-report dispatch fails. -/
def exRunEnvNoSend : RunEnv := ⟨1000, false, [], true, false⟩

/-- A run state whose last report was 100 seconds ago at `now = 1000`. -/
def exStRecent : RunState := ⟨3, 0, some 900, false, some 900⟩

end ResMonitor

/-! ## Theorems settling the claims -/

namespace ResMonitor

/-- C2: a button is included in the candidate list returned by
`gather_candidate_buttons` if and only if its combined text (inner text +
`" "` + aria-label) is non-empty, the combined text contains a
Friday/Saturday keyword, the button is enabled (no `disabled` attribute,
`aria-disabled != "true"`, no disabled-indicating class token), and its
parsed date is Unknown or within the monitoring horizon; and the snapshot
`["Friday 10 May" enabled, "Saturday 11 May" disabled, "Monday 13 May"
enabled]` yields exactly `["Friday 10 May"]`. -/
theorem gather_matches_filter :
    (∀ (btns : List Button) (today : Date),
      gather_candidate_buttons btns today =
        (btns.filter (fun b => btnNonempty b && is_friday_or_saturday (btnCombined b) &&
          btnEnabled b && is_within_date_range (btnCombined b) today)).map btnLabel) ∧
    gather_candidate_buttons [exBtnFri, exBtnSatDisabled, exBtnMon] exToday =
      ["Friday 10 May".data] := by
  constructor
  · intro btns today
    induction btns with
    | nil => rfl
    | cons b rest ih =>
      cases h : btnIsCandidate b today with
      | true =>
        simp only [gather_candidate_buttons, h, if_true, List.filter_cons]
        rw [show (btnNonempty b && is_friday_or_saturday (btnCombined b) &&
          btnEnabled b && is_within_date_range (btnCombined b) today) = true from h]
        simp [ih]
      | false =>
        simp only [gather_candidate_buttons, h, if_false, List.filter_cons]
        rw [show (btnNonempty b && is_friday_or_saturday (btnCombined b) &&
          btnEnabled b && is_within_date_range (btnCombined b) today) = false from h]
        simp [ih]
  · decide

/-- C3 counterexample: a post-advance page whose visible text contains the
configured fully-booked phrase `restaurant est complet` *and* which exposes
an email input is classified available by `check_single_date` and included
in the results — the fully-booked phrase does not take precedence, refuting
the claim's ordered rules. -/
theorem classify_both_signals_available :
    is_fully_booked exPageBoth = true ∧ reached_booking_step exPageBoth = true ∧
    classifyAfterAdvance exPageBoth = true ∧
    check_single_date exEnvBoth "Friday 10 May".data = true ∧
    check_dates [("Friday 10 May".data, exEnvBoth)] = ["Friday 10 May".data] := by
  refine ⟨by decide, by decide, by decide, by decide, by decide⟩

/-- C3 amended: classification consults the booking-form probe first — a
page exposing a recognizable contact/booking-form field is classified
Available (and included) even when a fully-booked phrase is present; only
when no booking-form field is detected does a fully-booked phrase yield
FullyBooked (exclusion), and a page with neither signal falls through to
Available. -/
theorem classify_form_checked_first :
    (∀ p : ClassifyPage,
      classifyAfterAdvance p = (reached_booking_step p || !is_fully_booked p)) ∧
    classifyAfterAdvance exPageComplet = false ∧ classifyAfterAdvance exPageForm = true := by
  refine ⟨?_, by decide, by decide⟩
  intro p
  cases h1 : reached_booking_step p <;> cases h2 : is_fully_booked p <;>
    simp [classifyAfterAdvance, h1, h2]

/-- C9: Friday/Saturday detection is raw case-insensitive substring
containment over the eight configured keywords, so texts naming no weekday
match — `event` contains `ven` and `sample` contains `sam` — and such a
button (enabled, in horizon) becomes a candidate. -/
theorem friday_saturday_substring_false_positives :
    containsSub "ven".data (lowerStr "event".data) = true ∧
    is_friday_or_saturday "event".data = true ∧
    containsSub "sam".data (lowerStr "sample".data) = true ∧
    is_friday_or_saturday "sample".data = true ∧
    gather_candidate_buttons [exBtnEvent] exToday = ["Event 14 June".data] := by
  decide

/-- C10: when both post-advance page reads fail — the booking-form probe
raises and the body-text read raises — `reached_booking_step` and
`is_fully_booked` both return `false`, `check_single_date`'s fall-through
returns `true`, and the candidate is added to the final results: a
page-read error classifies toward availability. -/
theorem page_read_failure_classified_available :
    ∀ (env : ProbeEnv) (label bl : List Char),
      env.page.bookingProbeRaises = true → env.page.bodyText = none →
      env.clickOk = true → env.nextClickOk = true → env.finalWaitOk = true →
      relocate (gather_candidate_buttons env.relocButtons env.today) label = some bl →
      reached_booking_step env.page = false ∧ is_fully_booked env.page = false ∧
      classifyAfterAdvance env.page = true ∧ check_single_date env label = true ∧
      check_dates [(label, env)] = [label] := by
  intro env label bl h1 h2 h3 h4 h5 h6
  have hr : reached_booking_step env.page = false := by
    simp [reached_booking_step, h1]
  have hb : is_fully_booked env.page = false := by
    simp [is_fully_booked, h2]
  have hc : classifyAfterAdvance env.page = true := by
    simp [classifyAfterAdvance, hr, hb]
  have hs : check_single_date env label = true := by
    simp [check_single_date, h6, h3, h4, h5, hc]
  exact ⟨hr, hb, hc, hs, by simp [check_dates, hs]⟩

/-- C10 witness: the concrete unreadable page `exPageFail`, probed through
`exEnvFail`, is classified available and collected. -/
theorem page_read_failure_witness :
    exPageFail.bookingProbeRaises = true ∧ exPageFail.bodyText = none ∧
    check_single_date exEnvFail "Friday 10 May".data = true ∧
    check_dates [("Friday 10 May".data, exEnvFail)] = ["Friday 10 May".data] := by
  have h := page_read_failure_classified_available exEnvFail "Friday 10 May".data
    "Friday 10 May".data rfl rfl rfl rfl rfl (by decide)
  exact ⟨rfl, rfl, h.2.2.2.1, h.2.2.2.2⟩

/-- C7 counterexample: an exception while probing candidate 2 — its
calendar reset `page.goto` raising, the one per-iteration step of
`check_dates` not wrapped in any `try` — does not fail candidate 2 only:
the batch aborts with no result, candidate 3 is never probed, and even
candidate 1's already-established availability is lost, although without
the failing iteration both good candidates are found. -/
theorem reset_failure_aborts_batch :
    check_single_date exEnvGood "Friday 10 May".data = true ∧
    check_single_date exEnvGood2 "Saturday 17 May".data = true ∧
    check_dates_resets
      [(true, "Friday 10 May".data, exEnvGood),
       (false, "X".data, exEnvEmpty),
       (true, "Saturday 17 May".data, exEnvGood2)] = none ∧
    check_dates_resets
      [(true, "Friday 10 May".data, exEnvGood),
       (true, "Saturday 17 May".data, exEnvGood2)] =
      some ["Friday 10 May".data, "Saturday 17 May".data] := by
  refine ⟨by decide, by decide, by decide, by decide⟩

/-- C7 amended: a failure inside the per-candidate probe — relocation
finding no bidirectional substring label match, a missing Next/Continue
button, or an exception caught by `check_single_date`'s handler — yields a
failed outcome for that candidate only: it contributes nothing and the
later candidates are still probed.  An exception in the unguarded calendar
reset of `check_dates`' loop, however, propagates and aborts the entire
batch: no availability list is produced and no later candidate is probed.
When every reset succeeds, the full loop reduces to the isolated
per-candidate probing. -/
theorem probe_failure_isolation_amended :
    (∀ (xs ys : List (List Char × ProbeEnv)) (label : List Char) (env : ProbeEnv),
      (relocate (gather_candidate_buttons env.relocButtons env.today) label = none ∨
        env.clickOk = false ∨ env.nextClickOk = false ∨ env.finalWaitOk = false) →
      check_single_date env label = false ∧
      check_dates (xs ++ (label, env) :: ys) = check_dates xs ++ check_dates ys) ∧
    (∀ (pre post : List (Bool × List Char × ProbeEnv)) (label : List Char) (env : ProbeEnv),
      check_dates_resets (pre ++ (false, label, env) :: post) = none) ∧
    (∀ l : List (List Char × ProbeEnv),
      check_dates_resets (l.map (fun p => (true, p.1, p.2))) = some (check_dates l)) := by
  refine ⟨?_, ?_, ?_⟩
  · intro xs ys label env h
    have hf : check_single_date env label = false := by
      unfold check_single_date
      cases hr : relocate (gather_candidate_buttons env.relocButtons env.today) label with
      | none => rfl
      | some bl =>
        rcases h with h | h | h | h
        · rw [h] at hr; exact Option.noConfusion hr
        · simp [h]
        · simp [h]
        · simp [h]
    refine ⟨hf, ?_⟩
    induction xs with
    | nil => simp [check_dates, hf]
    | cons hd tl ih =>
      obtain ⟨l2, e2⟩ := hd
      by_cases h2 : check_single_date e2 l2 = true
      · simp [check_dates, h2, ih]
      · simp only [Bool.not_eq_true] at h2
        simp [check_dates, h2, ih]
  · intro pre post label env
    induction pre with
    | nil => rfl
    | cons hd tl ih =>
      obtain ⟨r2, l2, e2⟩ := hd
      cases r2 <;> simp [check_dates_resets, ih]
  · intro l
    induction l with
    | nil => rfl
    | cons hd tl ih =>
      obtain ⟨l2, e2⟩ := hd
      simp [check_dates_resets, check_dates, ih]

/-- C7 witness: a probe whose relocation list is empty fails and is
isolated among successfully-reset candidates, while a single failing reset
already aborts its batch. -/
theorem probe_failure_isolation_amended_witness :
    relocate (gather_candidate_buttons exEnvEmpty.relocButtons exEnvEmpty.today) "X".data = none ∧
    check_single_date exEnvEmpty "X".data = false ∧
    check_dates ([("Friday 10 May".data, exEnvGood)] ++
        ("X".data, exEnvEmpty) :: [("Saturday 17 May".data, exEnvGood2)]) =
      check_dates [("Friday 10 May".data, exEnvGood)] ++
        check_dates [("Saturday 17 May".data, exEnvGood2)] ∧
    check_dates_resets [(false, "X".data, exEnvEmpty)] = none := by
  have h := probe_failure_isolation_amended.1 [("Friday 10 May".data, exEnvGood)]
    [("Saturday 17 May".data, exEnvGood2)] "X".data exEnvEmpty (Or.inl (by decide))
  exact ⟨by decide, h.1, h.2,
    probe_failure_isolation_amended.2.1 [] [] "X".data exEnvEmpty⟩

/-- C5: when a month name and a day are found but no `20xx` year token, the
parser infers the current year, rolling to the next year exactly when the
parsed month is strictly less than the current month; in particular
`Friday 25 April` parsed in March of year `y` yields year `y`, and parsed
in June of year `y` yields `y + 1`. -/
theorem year_inference :
    (∀ (text : List Char) (today : Date) (m d : Nat),
      monthLookup (lowerStr text) = some m → findDay none text = some d →
      findYear none text = none →
      parsedTriple text today =
        some ⟨if m < today.month then today.year + 1 else today.year, m, d⟩) ∧
    (∀ y : Nat,
      parsedTriple "Friday 25 April".data ⟨y, 3, 15⟩ = some ⟨y, 4, 25⟩ ∧
      parsedTriple "Friday 25 April".data ⟨y, 6, 15⟩ = some ⟨y + 1, 4, 25⟩) := by
  have main : ∀ (text : List Char) (today : Date) (m d : Nat),
      monthLookup (lowerStr text) = some m → findDay none text = some d →
      findYear none text = none →
      parsedTriple text today =
        some ⟨if m < today.month then today.year + 1 else today.year, m, d⟩ := by
    intro text today m d hm hd hy
    unfold parsedTriple
    rw [hm, hd, hy]
  refine ⟨main, ?_⟩
  intro y
  constructor
  · rw [main _ _ 4 25 (by decide) (by decide) (by decide)]
    norm_num
  · rw [main _ _ 4 25 (by decide) (by decide) (by decide)]
    norm_num

/-- C5 witness: the general year-inference rule instantiated at
`Friday 25 April` with today in June 2025. -/
theorem year_inference_witness :
    monthLookup (lowerStr "Friday 25 April".data) = some 4 ∧
    findDay none "Friday 25 April".data = some 25 ∧
    findYear none "Friday 25 April".data = none ∧
    parsedTriple "Friday 25 April".data ⟨2025, 6, 15⟩ = some ⟨2026, 4, 25⟩ := by
  refine ⟨by decide, by decide, by decide, ?_⟩
  have h := year_inference.1 "Friday 25 April".data ⟨2025, 6, 15⟩ 4 25
    (by decide) (by decide) (by decide)
  simpa using h

/-- C6: `is_within_date_range` returns `true` whenever parsing fails (no
month, no standalone 1–2-digit day, or an invalid calendar triple), and on
a successful parse it returns `true` exactly when
`today ≤ parsed ≤ today + MONTHS_AHEAD*30` days. -/
theorem horizon_semantics :
    ∀ (text : List Char) (today : Date),
      (parsedTriple text today = none → is_within_date_range text today = true) ∧
      (∀ d : Date, parsedTriple text today = some d → validDate d = false →
        is_within_date_range text today = true) ∧
      (∀ d : Date, parsedTriple text today = some d → validDate d = true →
        (is_within_date_range text today = true ↔
          dateOrd today ≤ dateOrd d ∧ dateOrd d ≤ dateOrd today + MONTHS_AHEAD * 30)) := by
  intro text today
  refine ⟨?_, ?_, ?_⟩
  · intro h; unfold is_within_date_range; rw [h]
  · intro d h hv
    unfold is_within_date_range
    rw [h]
    simp [hv]
  · intro d h hv
    unfold is_within_date_range
    rw [h]
    simp [hv]

/-- C6 witness: `Friday 10 May` parsed on 15 March 2025 is a valid date
inside the horizon, so the check returns `true` via the equivalence. -/
theorem horizon_semantics_witness :
    parsedTriple "Friday 10 May".data ⟨2025, 3, 15⟩ = some ⟨2025, 5, 10⟩ ∧
    validDate ⟨2025, 5, 10⟩ = true ∧
    is_within_date_range "Friday 10 May".data ⟨2025, 3, 15⟩ = true := by
  refine ⟨by decide, by decide, ?_⟩
  exact ((horizon_semantics "Friday 10 May".data ⟨2025, 3, 15⟩).2.2 ⟨2025, 5, 10⟩
    (by decide) (by decide)).mpr (by decide)

/-- The report tail of `reservation_checker.py` leaves the state untouched
when the status-report dispatch fails. -/
theorem reportTail_rc_send_failed (st : RunState) (now : Nat) :
    reportTail_rc st false now = st := by
  unfold reportTail_rc
  split <;> rfl

/-- The report tail of `reservation_checker.py` never changes
`successful_finds`. -/
theorem reportTail_rc_finds (st : RunState) (r : Bool) (now : Nat) :
    (reportTail_rc st r now).successful_finds = st.successful_finds := by
  unfold reportTail_rc
  split
  · split <;> rfl
  · rfl

/-- The report tail of `monitor.py` never changes `successful_finds`. -/
theorem reportTail_mon_finds (st : RunState) (r : Bool) (now : Nat) :
    (reportTail_mon st r now).successful_finds = st.successful_finds := by
  unfold reportTail_mon
  split <;> rfl

/-- C1: a run state with `reservation_found` set makes `run_check` (in both
`reservation_checker.py` and `monitor.py`) exit cleanly before taking any
DOM snapshot, filtering, or probing, leaving the persisted state unchanged
— so every subsequent invocation, until an external reset, also probes zero
candidates. -/
theorem reservation_found_short_circuit :
    ∀ st : RunState, st.reservation_found = true →
      (∀ env : RunEnv, run_check_rc st env =
        { finalState := st, probed := 0, tookSnapshot := false,
          earlyExit := true, alerted := false }) ∧
      (∀ envM : RunEnvM, run_check_mon st envM =
        { finalState := st, probed := 0, tookSnapshot := false,
          earlyExit := true, alerted := false }) ∧
      (∀ envs : List RunEnv, ∀ o ∈ iterate_rc st envs,
        o.probed = 0 ∧ o.tookSnapshot = false ∧ o.earlyExit = true ∧ o.finalState = st) := by
  intro st h
  have hrc : ∀ env : RunEnv, run_check_rc st env =
      { finalState := st, probed := 0, tookSnapshot := false,
        earlyExit := true, alerted := false } := by
    intro env
    simp [run_check_rc, h]
  have hmon : ∀ envM : RunEnvM, run_check_mon st envM =
      { finalState := st, probed := 0, tookSnapshot := false,
        earlyExit := true, alerted := false } := by
    intro envM
    simp [run_check_mon, h]
  refine ⟨hrc, hmon, ?_⟩
  intro envs
  induction envs with
  | nil => intro o ho; cases ho
  | cons e es ih =>
    intro o ho
    rw [iterate_rc, hrc e] at ho
    rcases List.mem_cons.mp ho with h1 | h1
    · subst h1; exact ⟨rfl, rfl, rfl, rfl⟩
    · exact ih o h1

/-- C1 witness: the short-circuit applied to a concrete found-state. -/
theorem reservation_found_short_circuit_witness :
    exStFound.reservation_found = true ∧
    run_check_rc exStFound exRunEnv =
      { finalState := exStFound, probed := 0, tookSnapshot := false,
        earlyExit := true, alerted := false } :=
  ⟨rfl, (reservation_found_short_circuit exStFound rfl).1 exRunEnv⟩

/-- C4 counterexample: in `monitor.py`, a due report with a failing
dispatch (`send_email` returns `False`) still advances the persisted
`last_report_time` from `none` to the current time, refuting the claim for
that invocation. -/
theorem monitor_report_time_advances_on_failed_send :
    should_send_report exStZero 1000 = true ∧
    (run_check_mon exStZero ⟨1000, false, 0, [], false⟩).finalState.last_report_time =
      some 1000 ∧
    exStZero.last_report_time = none := by
  decide

/-- C4 amended: in `reservation_checker.py`, `last_report_time` advances
only when a status report is actually dispatched — a failed send or no due
report leaves it unchanged; in `monitor.py`, however, the report tail
advances `last_report_time` whenever a report is due, regardless of the
send result (it is unchanged only when no report is due). -/
theorem report_time_advance_policy :
    (∀ (st : RunState) (env : RunEnv), env.reportOk = false →
      (run_check_rc st env).finalState.last_report_time = st.last_report_time) ∧
    (∀ (st : RunState) (r : Bool) (now : Nat), should_send_report st now = false →
      reportTail_rc st r now = st ∧ reportTail_mon st r now = st) ∧
    (∀ (st : RunState) (r : Bool) (now : Nat), should_send_report st now = true →
      (reportTail_mon st r now).last_report_time = some now) := by
  refine ⟨?_, ?_, ?_⟩
  · intro st env h
    unfold run_check_rc
    by_cases hf : st.reservation_found = true
    · simp [hf]
    · simp only [Bool.not_eq_true] at hf
      by_cases hc : env.crashed = true
      · simp [hf, hc, h, reportTail_rc_send_failed]
      · simp only [Bool.not_eq_true] at hc
        by_cases he : (check_dates env.candEnvs).isEmpty = true
        · simp [hf, hc, he, h, reportTail_rc_send_failed]
        · simp only [Bool.not_eq_true] at he
          simp [hf, hc, he, h]
  · intro st r now h
    constructor
    · unfold reportTail_rc; rw [h]; rfl
    · unfold reportTail_mon; rw [h]; rfl
  · intro st r now h
    unfold reportTail_mon
    rw [h]
    rfl

/-- C4 witness: the amended policy instantiated — a failed dispatch leaves
`reservation_checker.py`'s persisted `last_report_time` unchanged, and with
no report due `monitor.py`'s tail is the identity. -/
theorem report_time_advance_policy_witness :
    exRunEnvNoSend.reportOk = false ∧
    (run_check_rc exStZero exRunEnvNoSend).finalState.last_report_time =
      exStZero.last_report_time ∧
    should_send_report exStRecent 1000 = false ∧
    reportTail_mon exStRecent true 1000 = exStRecent := by
  refine ⟨rfl, report_time_advance_policy.1 exStZero exRunEnvNoSend rfl, by decide, ?_⟩
  exact (report_time_advance_policy.2.1 exStRecent true 1000 (by decide)).2

/-- C8: in one invocation (of either variant) the persisted
`successful_finds` counter changes by exactly `1` when the probing produced
at least one available candidate, and by `0` otherwise — so it increments
at most once per invocation, exactly on a non-empty result. -/
theorem successful_finds_policy :
    ∀ (st : RunState) (env : RunEnv) (envM : RunEnvM),
      (run_check_rc st env).finalState.successful_finds =
        st.successful_finds +
          (if st.reservation_found = false ∧ env.crashed = false ∧
              check_dates env.candEnvs ≠ [] then 1 else 0) ∧
      (run_check_mon st envM).finalState.successful_finds =
        st.successful_finds +
          (if st.reservation_found = false ∧ envM.crashed = false ∧
              envM.results ≠ [] then 1 else 0) := by
  intro st env envM
  constructor
  · unfold run_check_rc
    by_cases hf : st.reservation_found = true
    · simp [hf]
    · simp only [Bool.not_eq_true] at hf
      by_cases hc : env.crashed = true
      · simp [hf, hc, reportTail_rc_finds]
      · simp only [Bool.not_eq_true] at hc
        by_cases he : check_dates env.candEnvs = []
        · simp [hf, hc, he, reportTail_rc_finds]
        · simp [hf, hc, he, List.isEmpty_iff]
  · unfold run_check_mon
    by_cases hf : st.reservation_found = true
    · simp [hf]
    · simp only [Bool.not_eq_true] at hf
      by_cases hc : envM.crashed = true
      · simp [hf, hc, reportTail_mon_finds]
      · simp only [Bool.not_eq_true] at hc
        by_cases he : envM.results = []
        · simp [hf, hc, he, reportTail_mon_finds]
        · simp [hf, hc, he, List.isEmpty_iff]

end ResMonitor
